import Mathlib

/-!
Verification of the request-gateway core of `server-client-python`,
embedded shallowly from `src/tableauserverclient/server/endpoint/endpoint.py`.

Python dictionaries are embedded as association lists with unique keys,
with `dictSet` giving Python's update-in-place assignment semantics
(replace the binding if the key exists, append otherwise) and `dictUpdate`
giving `dict.update`.  The injected HTTP transport (`requests` session verb
methods) is a function from URL and parameter bag to a response envelope;
`bytes.decode` is an injected decoding oracle returning `none` where Python
would raise `UnicodeDecodeError`/`LookupError`.  Observable side effects
(the transport call, the decode attempt, the diagnostic log emission) are
tracked in an explicit effect trace, and the post-call state of the
caller-supplied parameter mapping is returned explicitly, since
`_make_request` mutates that mapping in place through `dict.update`.
-/

set_option autoImplicit false

/-- A parameter value stored in a transport parameter bag: plain option
values, the computed header mapping, or body bytes. -/
inductive PVal where
  | str (s : String)
  | headersV (h : List (String × String))
  | bytes (b : List Nat)
deriving DecidableEq

/-- A Python dict keyed by strings, as used for the transport parameter bag. -/
abbrev Dict := List (String × PVal)

/-- Python dict assignment `d[k] = v`: replace the existing binding of `k`
in place, or append a new binding. -/
def dictSet : Dict → String → PVal → Dict
  | [], k, v => [(k, v)]
  | (k0, v0) :: rest, k, v =>
    if k0 = k then (k, v) :: rest else (k0, v0) :: dictSet rest k v

/-- Python dict lookup `d[k]` (as an option): first binding of `k`. -/
def dictGet : Dict → String → Option PVal
  | [], _ => none
  | (k0, v0) :: rest, k => if k0 = k then some v0 else dictGet rest k

/-- Python `d.update(upd)`: assign each binding of `upd` into `d` in order. -/
def dictUpdate (d : Dict) : Dict → Dict
  | [] => d
  | (k, v) :: rest => dictUpdate (dictSet d k v) rest

/-- Assignment into a string-valued header mapping, same semantics as
`dictSet`. -/
def hSet : List (String × String) → String → String → List (String × String)
  | [], k, v => [(k, v)]
  | (k0, v0) :: rest, k, v =>
    if k0 = k then (k, v) :: rest else (k0, v0) :: hSet rest k v

/-- Lookup in a string-valued header mapping. -/
def hGet : List (String × String) → String → Option String
  | [], _ => none
  | (k0, v0) :: rest, k => if k0 = k then some v0 else hGet rest k

/-- `Endpoint._make_common_headers(auth_token, content_type)`: start from an
empty dict, add `x-tableau-auth` when the token is not `None`, add
`content-type` when the content type is not `None`. -/
def make_common_headers (auth_token content_type : Option String) :
    List (String × String) :=
  let headers : List (String × String) := []
  let headers := match auth_token with
    | some t => hSet headers "x-tableau-auth" t
    | none => headers
  match content_type with
  | some c => hSet headers "content-type" c
  | none => headers

/-- The module-level `Success_codes = [200, 201, 204]`. -/
def Success_codes : List Nat := [200, 201, 204]

/-- The transport's raw result: numeric status code, raw body bytes, and the
optional declared text encoding (`requests.Response.encoding`, which may be
`None`). -/
structure ServerResponse where
  status_code : Nat
  content : List Nat
  encoding : Option String
deriving DecidableEq

/-- Modelled from the spec: the error classes of the `exceptions` module
(imported by `endpoint.py` but not part of the examined source).
`ServerResponseError.from_response(content)` builds a domain error from the
raw failure body; `EndpointUnavailableError` carries a message string.  The
remaining constructors stand for Python's built-in exceptions raised by the
decoding step and by an undefined version comparison. -/
inductive TSCError where
  | serverResponseError (content : List Nat)
  | endpointUnavailable (message : String)
  | unicodeDecodeError
  | typeErrorRaised
deriving DecidableEq

/-- `Endpoint._check_status`: raise `ServerResponseError.from_response` on a
status code outside `Success_codes`, return normally otherwise. -/
def check_status (resp : ServerResponse) : Except TSCError Unit :=
  if resp.status_code ∈ Success_codes then Except.ok ()
  else Except.error (TSCError.serverResponseError resp.content)

/-- Python truthiness of `server_response.encoding`: `None` and the empty
string are falsy. -/
def encodingTruthy : Option String → Bool
  | none => false
  | some s => !s.isEmpty

/-- The message interpolated by `logger.debug` in `_make_request`. -/
def logMessage (url text : String) : String :=
  "Server response from " ++ url ++ ":\n\t" ++ text

/-- An observable side effect of a dispatch: the transport invocation, a
body-decoding attempt, or a diagnostic log emission. -/
inductive Effect where
  | transportCall (url : String) (params : Dict)
  | decodeAttempt (content : List Nat) (enc : String)
  | logEmit (msg : String)
deriving DecidableEq

/-- Whether an effect is the transport invocation. -/
def isTransportCall : Effect → Bool
  | Effect.transportCall _ _ => true
  | _ => false

/-- Whether an effect is a body-decoding attempt. -/
def isDecodeAttempt : Effect → Bool
  | Effect.decodeAttempt _ _ => true
  | _ => false

/-- Whether an effect is a diagnostic log emission. -/
def isLogEmit : Effect → Bool
  | Effect.logEmit _ => true
  | _ => false

/-- `request_object.apply_query_params(url)` when a query-spec rewriter was
supplied, the URL unchanged otherwise. -/
def rewriteUrl : Option (String → String) → String → String
  | some ro, url => ro url
  | none, url => url

/-- The parameter bag `_make_request` hands to the transport: start from the
caller-supplied parameters (`parameters or {}`), apply
`parameters.update(self.parent_srv.http_options)`, then assign
`parameters['headers']` to the computed common headers, and
`parameters['data']` to the body content when one was given. -/
def mergedParams (parameters : Option Dict) (http_options : Dict)
    (auth_token content_type : Option String) (content : Option (List Nat)) :
    Dict :=
  let ps := parameters.getD []
  let ps := dictUpdate ps http_options
  let ps := dictSet ps "headers"
    (PVal.headersV (make_common_headers auth_token content_type))
  match content with
  | some c => dictSet ps "data" (PVal.bytes c)
  | none => ps

/-- The post-call state of the caller-supplied parameter mapping: `None`
stays `None`; an empty dict is replaced by a fresh `{}` through
`parameters or {}`, so the caller's object is untouched; a non-empty dict is
the very object the dispatch mutates, so afterwards it is the merged bag. -/
def callerAfterState (parameters : Option Dict) (bag : Dict) : Option Dict :=
  match parameters with
  | none => none
  | some d => if d.isEmpty then some d else some bag

/-- The outcome of one `_make_request` dispatch: the returned envelope or the
raised error, the effect trace, and the post-call state of the
caller-supplied parameter mapping (`none` when the caller passed `None`). -/
structure MakeRequestResult where
  result : Except TSCError ServerResponse
  trace : List Effect
  callerParams : Option Dict

/-- `Endpoint._make_request`: rewrite the URL through the query-spec
rewriter, build the merged parameter bag, invoke the transport verb, validate
the status, and, on success, decode and log the body when a truthy text
encoding is declared.  A non-empty caller-supplied `parameters` dict is the
very object mutated by `dict.update` and the `headers`/`data` assignments, so
afterwards it holds the merged bag; `None` or an empty dict (replaced by a
fresh `{}` through `parameters or {}`) is left unchanged. -/
def makeRequest (method : String → Dict → ServerResponse)
    (decode : List Nat → String → Option String)
    (url : String) (content : Option (List Nat))
    (request_object : Option (String → String))
    (auth_token content_type : Option String)
    (parameters : Option Dict) (http_options : Dict) : MakeRequestResult :=
  let u := rewriteUrl request_object url
  let ps := mergedParams parameters http_options auth_token content_type content
  let callerAfter : Option Dict := callerAfterState parameters ps
  let resp := method u ps
  let callTrace : List Effect := [Effect.transportCall u ps]
  match check_status resp with
  | Except.error e => ⟨Except.error e, callTrace, callerAfter⟩
  | Except.ok _ =>
    if encodingTruthy resp.encoding then
      match decode resp.content (resp.encoding.getD "") with
      | some text =>
        ⟨Except.ok resp,
         callTrace ++ [Effect.decodeAttempt resp.content (resp.encoding.getD ""),
                       Effect.logEmit (logMessage u text)],
         callerAfter⟩
      | none =>
        ⟨Except.error TSCError.unicodeDecodeError,
         callTrace ++ [Effect.decodeAttempt resp.content (resp.encoding.getD "")],
         callerAfter⟩
    else ⟨Except.ok resp, callTrace, callerAfter⟩

/-- The transport handle: the verb methods of the session object
(`requests.Session.get/delete/put/post`), each injected as a function from
URL and parameter bag to a response envelope. -/
structure Session where
  get : String → Dict → ServerResponse
  delete : String → Dict → ServerResponse
  put : String → Dict → ServerResponse
  post : String → Dict → ServerResponse

/-- The session context `parent_srv`: transport handle, live auth token
(optional before sign-in), negotiated API version string, and the
session-wide transport options. -/
structure ParentSrv where
  session : Session
  auth_token : Option String
  version : String
  http_options : Dict

/-- `Endpoint.get_unauthenticated_request`. -/
def get_unauthenticated_request (decode : List Nat → String → Option String)
    (srv : ParentSrv) (url : String)
    (request_object : Option (String → String)) : MakeRequestResult :=
  makeRequest srv.session.get decode url none request_object none none none
    srv.http_options

/-- `Endpoint.get_request`. -/
def get_request (decode : List Nat → String → Option String)
    (srv : ParentSrv) (url : String)
    (request_object : Option (String → String))
    (parameters : Option Dict) : MakeRequestResult :=
  makeRequest srv.session.get decode url none request_object srv.auth_token
    none parameters srv.http_options

/-- `Endpoint.delete_request`: dispatch the DELETE and return `None` to the
caller (the response envelope is dropped after status validation). -/
def delete_request (decode : List Nat → String → Option String)
    (srv : ParentSrv) (url : String) : Except TSCError Unit × List Effect :=
  let r := makeRequest srv.session.delete decode url none none srv.auth_token
    none none srv.http_options
  (r.result.map (fun _ => ()), r.trace)

/-- `Endpoint.put_request` (its default content type is `"text/xml"`). -/
def put_request (decode : List Nat → String → Option String)
    (srv : ParentSrv) (url : String) (xml_request : List Nat)
    (content_type : String) : MakeRequestResult :=
  makeRequest srv.session.put decode url (some xml_request) none srv.auth_token
    (some content_type) none srv.http_options

/-- `Endpoint.post_request` (its default content type is `"text/xml"`). -/
def post_request (decode : List Nat → String → Option String)
    (srv : ParentSrv) (url : String) (xml_request : List Nat)
    (content_type : String) : MakeRequestResult :=
  makeRequest srv.session.post decode url (some xml_request) none srv.auth_token
    (some content_type) none srv.http_options

/-- A component of a parsed loose version: a numeric run or a string run. -/
inductive VComp where
  | num (n : Nat)
  | strc (s : String)
deriving DecidableEq

/-- ASCII decimal digit, as matched by the version component pattern. -/
def isDigitChar (c : Char) : Bool := '0' ≤ c && c ≤ '9'

/-- ASCII lower-case letter, as matched by the version component pattern. -/
def isLowerAlpha (c : Char) : Bool := 'a' ≤ c && c ≤ 'z'

/-- A character kept in a non-matching gap between version components:
neither a digit, a lower-case letter, nor a dot. -/
def isGapChar (c : Char) : Bool := !isDigitChar c && !isLowerAlpha c && c ≠ '.'

/-- The numeric value of a run of decimal digits (Python `int`). -/
def natOfDigits (ds : List Char) : Nat :=
  ds.foldl (fun acc c => acc * 10 + (c.toNat - 48)) 0

/-- Tokenizer of `distutils.version.LooseVersion.parse` (the `Version` the
source imports when `distutils2` is absent, which it is): split the string
into maximal digit runs, maximal lower-case runs, dots, and the non-matching
gaps between them; drop the dots; convert digit runs through `int`.  Fuel
recursion on the remaining character count. -/
def looseTokensAux : Nat → List Char → List VComp
  | 0, _ => []
  | _ + 1, [] => []
  | fuel + 1, c :: cs =>
    if isDigitChar c then
      VComp.num (natOfDigits (List.takeWhile isDigitChar (c :: cs))) ::
        looseTokensAux fuel (List.dropWhile isDigitChar (c :: cs))
    else if isLowerAlpha c then
      VComp.strc (String.mk (List.takeWhile isLowerAlpha (c :: cs))) ::
        looseTokensAux fuel (List.dropWhile isLowerAlpha (c :: cs))
    else if c = '.' then
      looseTokensAux fuel cs
    else
      VComp.strc (String.mk (List.takeWhile isGapChar (c :: cs))) ::
        looseTokensAux fuel (List.dropWhile isGapChar (c :: cs))

/-- `distutils.version.LooseVersion`: the original string together with its
parsed component list. -/
structure LVersion where
  vstring : String
  version : List VComp
deriving DecidableEq

/-- `LooseVersion(vstring)`. -/
def LVersion.ofString (s : String) : LVersion :=
  ⟨s, looseTokensAux (s.data.length + 1) s.data⟩

/-- Comparison of two version components, Python style: numbers compare
numerically, strings lexicographically, and a number against a string is
undefined (`TypeError` in Python 3). -/
def vcompCmp : VComp → VComp → Option Ordering
  | VComp.num a, VComp.num b => some (compare a b)
  | VComp.strc a, VComp.strc b => some (compare a b)
  | _, _ => none

/-- Python list comparison of parsed component lists: elementwise on the
first differing position, a strict prefix is smaller, and comparison is
undefined as soon as the first differing position mixes a number with a
string. -/
def vlistCmp : List VComp → List VComp → Option Ordering
  | [], [] => some Ordering.eq
  | [], _ :: _ => some Ordering.lt
  | _ :: _, [] => some Ordering.gt
  | x :: xs, y :: ys =>
    match vcompCmp x y with
    | some Ordering.eq => vlistCmp xs ys
    | some o => some o
    | none => none

/-- `LooseVersion.__lt__`: `true` when the component lists compare strictly
below, `none` when the comparison is undefined. -/
def looseLt (a b : LVersion) : Option Bool :=
  match vlistCmp a.version b.version with
  | some o => some (decide (o = Ordering.lt))
  | none => none

/-- Lexicographic comparison of two lists of naturals by numeric value of
the components. -/
def natListCmp : List Nat → List Nat → Ordering
  | [], [] => Ordering.eq
  | [], _ :: _ => Ordering.lt
  | _ :: _, [] => Ordering.gt
  | n :: ns, m :: ms =>
    match compare n m with
    | Ordering.eq => natListCmp ns ms
    | o => o

/-- The `api(version)` decorator's wrapper: normalize the live server version
and the declared minimum through `Version` (`LooseVersion`), raise
`EndpointUnavailableError` with both version strings in the message when the
server is older, and otherwise invoke the wrapped operation with its original
arguments, returning its result.  An undefined comparison is Python's
`TypeError`. -/
def api_wrapper {α β : Type} (version : String) (func : ParentSrv → α → β)
    (srv : ParentSrv) (args : α) : Except TSCError β :=
  let server_version := LVersion.ofString srv.version
  let minimum_supported := LVersion.ofString version
  match looseLt server_version minimum_supported with
  | some true =>
    Except.error (TSCError.endpointUnavailable
      ("This endpoint is not available in API version " ++
       server_version.vstring ++ ". Requires " ++ minimum_supported.vstring))
  | some false => Except.ok (func srv args)
  | none => Except.error TSCError.typeErrorRaised

/-- A decoding oracle instance modelling `bytes.decode` with a UTF-8-style
codec on the inputs used below: ASCII bytes decode to the corresponding
characters, and a body containing a byte above 127 (such as 0xFF, never valid
UTF-8) fails to decode. -/
def asciiDecode (bs : List Nat) (_enc : String) : Option String :=
  if bs.all (fun b => b < 128) then some (String.mk (bs.map Char.ofNat))
  else none

/-- A fixed 200/empty/no-encoding response, used to build concrete sessions. -/
def okResponse : ServerResponse := ⟨200, [], none⟩

/-- A session whose every verb returns `okResponse`. -/
def constSession : Session :=
  ⟨fun _ _ => okResponse, fun _ _ => okResponse,
   fun _ _ => okResponse, fun _ _ => okResponse⟩

/-- A concrete session context whose negotiated API version is "2.9". -/
def srv29 : ParentSrv := ⟨constSession, some "token", "2.9", []⟩

/-- A concrete wrapped operation. -/
def bumpOp : ParentSrv → Nat → Nat := fun _ n => n + 1

/-- A 200 response with a 3-byte body and no declared encoding. -/
def respWithBody : ServerResponse := ⟨200, [1, 2, 3], none⟩

/-- A concrete session context whose DELETE response carries a body. -/
def srvDel : ParentSrv :=
  ⟨⟨fun _ _ => okResponse, fun _ _ => respWithBody,
    fun _ _ => okResponse, fun _ _ => okResponse⟩, some "token", "2.9", []⟩

/-- A 200 response whose body is the single byte 0xFF (not valid text) with
no declared encoding. -/
def respBinary : ServerResponse := ⟨200, [255], none⟩

/-- A 404 response that declares an encoding and carries a body. -/
def resp404 : ServerResponse := ⟨404, [5], some "utf-8"⟩

/-- A 200 response that declares UTF-8 but whose body byte 0xFF cannot be
decoded. -/
def resp200utf8 : ServerResponse := ⟨200, [255], some "utf-8"⟩

/-- A session context whose GET response is `resp200utf8`. -/
def srvBadBody : ParentSrv :=
  ⟨⟨fun _ _ => resp200utf8, fun _ _ => okResponse,
    fun _ _ => okResponse, fun _ _ => okResponse⟩, some "token", "2.9", []⟩

/-- A session context whose session-wide transport options define the key
"headers". -/
def srvSessHeaders : ParentSrv :=
  ⟨constSession, none, "2.9", [("headers", PVal.str "session-value")]⟩

/-- A session context with a non-empty session-wide option set and a token. -/
def srvOpts : ParentSrv :=
  ⟨constSession, some "t0k3n", "2.9", [("timeout", PVal.str "100")]⟩

theorem dictGet_set_self (d : Dict) (k : String) (v : PVal) :
    dictGet (dictSet d k v) k = some v := by
  induction d with
  | nil => simp [dictSet, dictGet]
  | cons kv rest ih =>
    obtain ⟨k0, v0⟩ := kv
    by_cases h : k0 = k
    · simp [dictSet, dictGet, h]
    · simp [dictSet, dictGet, h, ih]

theorem dictGet_set_other (d : Dict) (k0 k : String) (v : PVal) (h : k0 ≠ k) :
    dictGet (dictSet d k0 v) k = dictGet d k := by
  induction d with
  | nil => simp [dictSet, dictGet, h]
  | cons kv rest ih =>
    obtain ⟨k1, v1⟩ := kv
    by_cases h1 : k1 = k0
    · simp [dictSet, dictGet, h1, h]
    · by_cases h2 : k1 = k
      · simp [dictSet, dictGet, h1, h2, Ne.symm h]
      · simp [dictSet, dictGet, h1, h2, ih]

theorem dictGet_eq_none_of_not_mem (d : Dict) (k : String)
    (h : k ∉ d.map Prod.fst) : dictGet d k = none := by
  induction d with
  | nil => simp [dictGet]
  | cons kv rest ih =>
    obtain ⟨k0, v0⟩ := kv
    simp only [List.map_cons, List.mem_cons] at h
    push_neg at h
    simp [dictGet, Ne.symm h.1, ih h.2]

theorem dictGet_update_of_get_none (upd : Dict) : ∀ (d : Dict) (k : String),
    dictGet upd k = none → dictGet (dictUpdate d upd) k = dictGet d k := by
  induction upd with
  | nil => intro d k _; simp [dictUpdate]
  | cons kv rest ih =>
    intro d k h
    obtain ⟨k0, v0⟩ := kv
    by_cases hk : k0 = k
    · simp [dictGet, hk] at h
    · simp only [dictGet, if_neg hk] at h
      simp only [dictUpdate]
      rw [ih _ k h, dictGet_set_other _ _ _ _ hk]

theorem dictGet_update_of_get_some (upd : Dict) : ∀ (d : Dict) (k : String)
    (v : PVal), (upd.map Prod.fst).Nodup → dictGet upd k = some v →
    dictGet (dictUpdate d upd) k = some v := by
  induction upd with
  | nil => intro d k v _ h; simp [dictGet] at h
  | cons kv rest ih =>
    intro d k v hnd h
    obtain ⟨k0, v0⟩ := kv
    simp only [List.map_cons, List.nodup_cons] at hnd
    by_cases hk : k0 = k
    · simp only [dictGet, if_pos hk] at h
      obtain rfl := Option.some_injective _ h
      simp only [dictUpdate]
      have hrest : dictGet rest k = none := by
        apply dictGet_eq_none_of_not_mem
        rw [← hk]; exact hnd.1
      rw [dictGet_update_of_get_none _ _ _ hrest, ← hk, dictGet_set_self]
    · simp only [dictGet, if_neg hk] at h
      simp only [dictUpdate]
      exact ih _ k v hnd.2 h

theorem vlistCmp_map_num (ns : List Nat) : ∀ ms : List Nat,
    vlistCmp (ns.map VComp.num) (ms.map VComp.num) = some (natListCmp ns ms) := by
  induction ns with
  | nil =>
    intro ms
    cases ms <;> simp [vlistCmp, natListCmp]
  | cons n ns ih =>
    intro ms
    cases ms with
    | nil => simp [vlistCmp, natListCmp]
    | cons m ms =>
      simp only [List.map_cons, vlistCmp, vcompCmp]
      cases h : compare n m <;> simp [natListCmp, h, ih]

/-- Claim C4: the header builder yields the authentication header exactly
when the token input is present, carrying the exact token string, yields the
content-type header exactly when a content type is present, and yields the
empty mapping when both inputs are absent.  It is a pure function of its two
inputs (it is a Lean function of exactly these two arguments). -/
theorem c4_header_builder (tok ctype : Option String) :
    hGet (make_common_headers tok ctype) "x-tableau-auth" = tok ∧
    hGet (make_common_headers tok ctype) "content-type" = ctype ∧
    make_common_headers none none = [] := by
  refine ⟨?_, ?_, rfl⟩ <;>
    cases tok <;> cases ctype <;> simp [make_common_headers, hSet, hGet]

/-- Claim C9: the `headers` entry of the parameter bag handed to the
transport is exactly the mapping the header builder computes from the auth
token and content type of the dispatch, regardless of any `headers` key in
the caller-supplied extra parameters or in the session-wide transport
options; and the transport is indeed invoked on that merged bag. -/
theorem c9_headers_exact (ps : Option Dict) (ho : Dict)
    (tok ctype : Option String) (co : Option (List Nat)) :
    dictGet (mergedParams ps ho tok ctype co) "headers" =
      some (PVal.headersV (make_common_headers tok ctype)) ∧
    ∀ (method : String → Dict → ServerResponse)
      (decode : List Nat → String → Option String) (url : String)
      (ro : Option (String → String)),
      ∃ rest, (makeRequest method decode url co ro tok ctype ps ho).trace =
        Effect.transportCall (rewriteUrl ro url)
          (mergedParams ps ho tok ctype co) :: rest := by
  constructor
  · unfold mergedParams
    cases co with
    | none => simp [dictGet_set_self]
    | some c =>
      simp only []
      rw [dictGet_set_other _ _ _ _ (by decide), dictGet_set_self]
  · intro method decode url ro
    simp only [makeRequest]
    split
    · exact ⟨[], rfl⟩
    · split
      · split
        · exact ⟨_, rfl⟩
        · exact ⟨_, rfl⟩
      · exact ⟨[], rfl⟩

/-- Claim C5: the version comparator used by the version gate orders version
strings by numeric comparison of their parsed numeric components, not by
lexicographic string comparison: on any two versions whose parsed components
are all numeric, `looseLt` agrees with numeric lexicographic comparison of
the component lists, the parse of "2.10" compares strictly above the parse of
"2.9", and plain string comparison orders those two strings the opposite
way. -/
theorem c5_numeric_comparator :
    (∀ (a b : LVersion) (ns ms : List Nat),
        a.version = ns.map VComp.num → b.version = ms.map VComp.num →
        looseLt a b = some (decide (natListCmp ns ms = Ordering.lt))) ∧
    looseLt (LVersion.ofString "2.9") (LVersion.ofString "2.10") = some true ∧
    looseLt (LVersion.ofString "2.10") (LVersion.ofString "2.9") = some false ∧
    "2.10".data < "2.9".data := by
  refine ⟨?_, ?_, ?_, ?_⟩
  · intro a b ns ms ha hb
    simp [looseLt, ha, hb, vlistCmp_map_num]
  · decide
  · decide
  · decide

/-- Closed instance of claim C5's theorem: the numeric-component clause
applied to the parses of "1.2" and "1.10". -/
theorem c5_numeric_comparator_witness :
    looseLt (LVersion.ofString "1.2") (LVersion.ofString "1.10") =
      some (decide (natListCmp [1, 2] [1, 10] = Ordering.lt)) :=
  c5_numeric_comparator.1 (LVersion.ofString "1.2") (LVersion.ofString "1.10")
    [1, 2] [1, 10] (by decide) (by decide)

/-- Claim C1: for an operation wrapped by `api` with declared minimum
version, when the live server version compares strictly below the minimum
(as normalized versions), the wrapper raises `EndpointUnavailableError`
whose message carries both version strings, and the wrapped operation is
never invoked (the outcome is the same for every wrapped operation); when it
does not compare below, the wrapped operation is invoked with its original
arguments and its result is returned unchanged. -/
theorem c1_version_gate {α β : Type} (version : String)
    (func : ParentSrv → α → β) (srv : ParentSrv) (args : α) :
    (looseLt (LVersion.ofString srv.version) (LVersion.ofString version) =
        some true →
      api_wrapper version func srv args =
        Except.error (TSCError.endpointUnavailable
          ("This endpoint is not available in API version " ++ srv.version ++
           ". Requires " ++ version)) ∧
      ∀ g : ParentSrv → α → β,
        api_wrapper version g srv args = api_wrapper version func srv args) ∧
    (looseLt (LVersion.ofString srv.version) (LVersion.ofString version) =
        some false →
      api_wrapper version func srv args = Except.ok (func srv args)) := by
  constructor
  · intro h
    constructor
    · simp only [api_wrapper]
      rw [h]
      exact rfl
    · intro g
      simp only [api_wrapper]
      rw [h]
  · intro h
    simp only [api_wrapper]
    rw [h]

/-- Closed instance of claim C1's theorem: server "2.9" against minimum
"2.10" raises the unavailable error, and against minimum "2.3" passes the
call through. -/
theorem c1_version_gate_witness :
    (api_wrapper "2.10" bumpOp srv29 4 =
      Except.error (TSCError.endpointUnavailable
        ("This endpoint is not available in API version " ++ "2.9" ++
         ". Requires " ++ "2.10"))) ∧
    api_wrapper "2.3" bumpOp srv29 4 = Except.ok (bumpOp srv29 4) := by
  constructor
  · exact ((c1_version_gate "2.10" bumpOp srv29 4).1 (by decide)).1
  · exact (c1_version_gate "2.3" bumpOp srv29 4).2 (by decide)

theorem makeRequest_failure (method : String → Dict → ServerResponse)
    (decode : List Nat → String → Option String) (url : String)
    (co : Option (List Nat)) (ro : Option (String → String))
    (tok ctype : Option String) (ps : Option Dict) (ho : Dict)
    (resp : ServerResponse)
    (hresp : method (rewriteUrl ro url) (mergedParams ps ho tok ctype co) = resp)
    (hst : resp.status_code ∉ Success_codes) :
    makeRequest method decode url co ro tok ctype ps ho =
      ⟨Except.error (TSCError.serverResponseError resp.content),
       [Effect.transportCall (rewriteUrl ro url)
          (mergedParams ps ho tok ctype co)],
       callerAfterState ps (mergedParams ps ho tok ctype co)⟩ := by
  simp only [makeRequest]
  rw [hresp]
  simp [check_status, hst]

theorem makeRequest_success_noEnc (method : String → Dict → ServerResponse)
    (decode : List Nat → String → Option String) (url : String)
    (co : Option (List Nat)) (ro : Option (String → String))
    (tok ctype : Option String) (ps : Option Dict) (ho : Dict)
    (resp : ServerResponse)
    (hresp : method (rewriteUrl ro url) (mergedParams ps ho tok ctype co) = resp)
    (hst : resp.status_code ∈ Success_codes)
    (henc : encodingTruthy resp.encoding = false) :
    makeRequest method decode url co ro tok ctype ps ho =
      ⟨Except.ok resp,
       [Effect.transportCall (rewriteUrl ro url)
          (mergedParams ps ho tok ctype co)],
       callerAfterState ps (mergedParams ps ho tok ctype co)⟩ := by
  simp only [makeRequest]
  rw [hresp]
  simp [check_status, hst, henc]

theorem makeRequest_success_decodeOk (method : String → Dict → ServerResponse)
    (decode : List Nat → String → Option String) (url : String)
    (co : Option (List Nat)) (ro : Option (String → String))
    (tok ctype : Option String) (ps : Option Dict) (ho : Dict)
    (resp : ServerResponse) (text : String)
    (hresp : method (rewriteUrl ro url) (mergedParams ps ho tok ctype co) = resp)
    (hst : resp.status_code ∈ Success_codes)
    (henc : encodingTruthy resp.encoding = true)
    (hdec : decode resp.content (resp.encoding.getD "") = some text) :
    makeRequest method decode url co ro tok ctype ps ho =
      ⟨Except.ok resp,
       [Effect.transportCall (rewriteUrl ro url)
          (mergedParams ps ho tok ctype co),
        Effect.decodeAttempt resp.content (resp.encoding.getD ""),
        Effect.logEmit (logMessage (rewriteUrl ro url) text)],
       callerAfterState ps (mergedParams ps ho tok ctype co)⟩ := by
  simp only [makeRequest]
  rw [hresp]
  simp [check_status, hst, henc, hdec]

theorem makeRequest_success_decodeFail (method : String → Dict → ServerResponse)
    (decode : List Nat → String → Option String) (url : String)
    (co : Option (List Nat)) (ro : Option (String → String))
    (tok ctype : Option String) (ps : Option Dict) (ho : Dict)
    (resp : ServerResponse)
    (hresp : method (rewriteUrl ro url) (mergedParams ps ho tok ctype co) = resp)
    (hst : resp.status_code ∈ Success_codes)
    (henc : encodingTruthy resp.encoding = true)
    (hdec : decode resp.content (resp.encoding.getD "") = none) :
    makeRequest method decode url co ro tok ctype ps ho =
      ⟨Except.error TSCError.unicodeDecodeError,
       [Effect.transportCall (rewriteUrl ro url)
          (mergedParams ps ho tok ctype co),
        Effect.decodeAttempt resp.content (resp.encoding.getD "")],
       callerAfterState ps (mergedParams ps ho tok ctype co)⟩ := by
  simp only [makeRequest]
  rw [hresp]
  simp [check_status, hst, henc, hdec]

/-- Claim C7: whenever the internal dispatch of a DELETE returns a response
envelope, `delete_request` hands the caller `None` (unit), whatever body that
envelope carries: the envelope is discarded after status validation. -/
theorem c7_delete_no_payload (decode : List Nat → String → Option String)
    (srv : ParentSrv) (url : String) (resp : ServerResponse)
    (h : (makeRequest srv.session.delete decode url none none srv.auth_token
        none none srv.http_options).result = Except.ok resp) :
    (delete_request decode srv url).1 = Except.ok () := by
  simp only [delete_request]
  rw [h]
  rfl

/-- Closed instance of claim C7's theorem: the DELETE response carries the
body [1, 2, 3], yet the caller receives no payload. -/
theorem c7_delete_no_payload_witness :
    (delete_request asciiDecode srvDel "u").1 = Except.ok () ∧
    respWithBody.content = [1, 2, 3] :=
  ⟨c7_delete_no_payload asciiDecode srvDel "u" respWithBody rfl, rfl⟩

/-- Claim C8: for a successful response that declares no text encoding, the
gateway never attempts to decode the body: the raw envelope is returned, the
trace is the single transport call with no decode attempt and no log
emission, and the outcome is identical for every decoding oracle; in
general, a decode attempt or a log emission appears in the trace only when
the declared encoding is truthy. -/
theorem c8_no_decode_without_encoding
    (method : String → Dict → ServerResponse)
    (decode decode2 : List Nat → String → Option String) (url : String)
    (co : Option (List Nat)) (ro : Option (String → String))
    (tok ctype : Option String) (ps : Option Dict) (ho : Dict)
    (resp : ServerResponse)
    (hresp : method (rewriteUrl ro url) (mergedParams ps ho tok ctype co) =
      resp) :
    (resp.encoding = none → resp.status_code ∈ Success_codes →
      (makeRequest method decode url co ro tok ctype ps ho).result =
        Except.ok resp ∧
      (makeRequest method decode url co ro tok ctype ps ho).trace =
        [Effect.transportCall (rewriteUrl ro url)
          (mergedParams ps ho tok ctype co)] ∧
      makeRequest method decode url co ro tok ctype ps ho =
        makeRequest method decode2 url co ro tok ctype ps ho) ∧
    (∀ e ∈ (makeRequest method decode url co ro tok ctype ps ho).trace,
      (isDecodeAttempt e || isLogEmit e) = true →
      encodingTruthy resp.encoding = true) := by
  constructor
  · intro henc hst
    have henc2 : encodingTruthy resp.encoding = false := by
      rw [henc]
      rfl
    rw [makeRequest_success_noEnc method decode url co ro tok ctype ps ho resp
        hresp hst henc2,
      makeRequest_success_noEnc method decode2 url co ro tok ctype ps ho resp
        hresp hst henc2]
    exact ⟨rfl, rfl, rfl⟩
  · intro e he hde
    cases htr : encodingTruthy resp.encoding with
    | true => rfl
    | false =>
      by_cases hst : resp.status_code ∈ Success_codes
      · rw [makeRequest_success_noEnc method decode url co ro tok ctype ps ho
          resp hresp hst htr] at he
        simp only [List.mem_singleton] at he
        rw [he] at hde
        simp [isDecodeAttempt, isLogEmit] at hde
      · rw [makeRequest_failure method decode url co ro tok ctype ps ho
          resp hresp hst] at he
        simp only [List.mem_singleton] at he
        rw [he] at hde
        simp [isDecodeAttempt, isLogEmit] at hde

/-- Closed instance of claim C8's theorem: a 200 response with the
undecodable binary body [255] and no declared encoding is returned raw, with
no exception. -/
theorem c8_no_decode_without_encoding_witness :
    (makeRequest (fun _ _ => respBinary) asciiDecode "u" none none none none
        none []).result = Except.ok respBinary ∧
    respBinary.content = [255] :=
  ⟨((c8_no_decode_without_encoding (fun _ _ => respBinary) asciiDecode
      asciiDecode "u" none none none none none [] respBinary rfl).1
      rfl (by decide)).1, rfl⟩

/-- Claim C10: when the transport's response status is outside the success
set, the error is raised before the diagnostic logging step: the result is
the `ServerResponseError` and the trace is the bare transport call — the
body is never decoded and no log entry is emitted, whatever the declared
encoding. -/
theorem c10_failure_before_logging
    (method : String → Dict → ServerResponse)
    (decode : List Nat → String → Option String) (url : String)
    (co : Option (List Nat)) (ro : Option (String → String))
    (tok ctype : Option String) (ps : Option Dict) (ho : Dict)
    (resp : ServerResponse)
    (hresp : method (rewriteUrl ro url) (mergedParams ps ho tok ctype co) =
      resp)
    (hst : resp.status_code ∉ Success_codes) :
    (makeRequest method decode url co ro tok ctype ps ho).result =
      Except.error (TSCError.serverResponseError resp.content) ∧
    (makeRequest method decode url co ro tok ctype ps ho).trace =
      [Effect.transportCall (rewriteUrl ro url)
        (mergedParams ps ho tok ctype co)] := by
  rw [makeRequest_failure method decode url co ro tok ctype ps ho resp hresp
    hst]
  exact ⟨rfl, rfl⟩

/-- Closed instance of claim C10's theorem at a 404 response that declares
UTF-8: the error is raised and the trace holds no decode and no log. -/
theorem c10_failure_before_logging_witness :
    (makeRequest (fun _ _ => resp404) asciiDecode "u" none none none none
        none []).result =
      Except.error (TSCError.serverResponseError resp404.content) ∧
    (makeRequest (fun _ _ => resp404) asciiDecode "u" none none none none
        none []).trace =
      [Effect.transportCall (rewriteUrl none "u")
        (mergedParams none [] none none none)] :=
  c10_failure_before_logging (fun _ _ => resp404) asciiDecode "u" none none
    none none none [] resp404 rfl (by decide)

/-- Counterexample to claim C2 as stated: a GET whose transport response has
success status 200 nevertheless raises an error (the decode failure in the
logging step), instead of returning the raw envelope to the caller. -/
theorem c2_counterexample :
    resp200utf8.status_code = 200 ∧
    (get_request asciiDecode srvBadBody "u" none none).result =
      Except.error TSCError.unicodeDecodeError := ⟨rfl, rfl⟩

/-- Claim C2 (amended): for every transport response, through any verb: a
status outside {200, 201, 204} raises `ServerResponseError`; a status inside
the set returns the raw envelope unchanged provided no truthy text encoding
is declared or the body decodes under the declared encoding, while a decode
failure during the diagnostic logging step raises a decode error despite
the success status. -/
theorem c2_status_dispatch
    (method : String → Dict → ServerResponse)
    (decode : List Nat → String → Option String) (url : String)
    (co : Option (List Nat)) (ro : Option (String → String))
    (tok ctype : Option String) (ps : Option Dict) (ho : Dict)
    (resp : ServerResponse)
    (hresp : method (rewriteUrl ro url) (mergedParams ps ho tok ctype co) =
      resp) :
    (resp.status_code ∉ Success_codes →
      (makeRequest method decode url co ro tok ctype ps ho).result =
        Except.error (TSCError.serverResponseError resp.content)) ∧
    (resp.status_code ∈ Success_codes →
      (encodingTruthy resp.encoding = false →
        (makeRequest method decode url co ro tok ctype ps ho).result =
          Except.ok resp) ∧
      (∀ text, encodingTruthy resp.encoding = true →
        decode resp.content (resp.encoding.getD "") = some text →
        (makeRequest method decode url co ro tok ctype ps ho).result =
          Except.ok resp) ∧
      (encodingTruthy resp.encoding = true →
        decode resp.content (resp.encoding.getD "") = none →
        (makeRequest method decode url co ro tok ctype ps ho).result =
          Except.error TSCError.unicodeDecodeError)) := by
  refine ⟨fun hst => ?_,
    fun hst => ⟨fun henc => ?_, fun text henc hdec => ?_, fun henc hdec => ?_⟩⟩
  · rw [makeRequest_failure method decode url co ro tok ctype ps ho resp
      hresp hst]
  · rw [makeRequest_success_noEnc method decode url co ro tok ctype ps ho resp
      hresp hst henc]
  · rw [makeRequest_success_decodeOk method decode url co ro tok ctype ps ho
      resp text hresp hst henc hdec]
  · rw [makeRequest_success_decodeFail method decode url co ro tok ctype ps ho
      resp hresp hst henc hdec]

/-- Closed instance of claim C2's amended theorem: a 404 response raises the
server-response error, and a 200 response with no declared encoding is
returned unchanged. -/
theorem c2_status_dispatch_witness :
    (makeRequest (fun _ _ => resp404) asciiDecode "u" none none none none
        none []).result =
      Except.error (TSCError.serverResponseError resp404.content) ∧
    (makeRequest (fun _ _ => okResponse) asciiDecode "u" none none none none
        none []).result = Except.ok okResponse := by
  constructor
  · exact (c2_status_dispatch (fun _ _ => resp404) asciiDecode "u" none none
      none none none [] resp404 rfl).1 (by decide)
  · exact ((c2_status_dispatch (fun _ _ => okResponse) asciiDecode "u" none
      none none none none [] okResponse rfl).2 (by decide)).1 rfl

/-- Counterexample to claim C3 as stated: the caller-supplied extra
parameters and the session-wide options both define the key "headers", yet
the bag handed to the transport carries the computed header mapping for that
key, not the session-wide value. -/
theorem c3_counterexample :
    dictGet (mergedParams (some [("headers", PVal.str "caller-value")])
        srvSessHeaders.http_options srvSessHeaders.auth_token none none)
      "headers" ≠ some (PVal.str "session-value") ∧
    (get_request asciiDecode srvSessHeaders "u" none
        (some [("headers", PVal.str "caller-value")])).trace =
      [Effect.transportCall "u" [("headers", PVal.headersV [])]] :=
  ⟨by decide, rfl⟩

/-- Claim C3 (amended): when the caller-supplied extra transport parameters
and the session-wide transport options define the same key, the merged bag
passed to the transport carries the session-wide value for that key — for
every key other than "headers", which is always replaced by the computed
header mapping, and other than "data" when body content is supplied, which
is replaced by the body. -/
theorem c3_session_wins (ps : Dict) (ho : Dict) (tok ctype : Option String)
    (co : Option (List Nat)) (k : String) (v : PVal)
    (hk : k ≠ "headers")
    (hkd : k = "data" → co = none)
    (hnd : (ho.map Prod.fst).Nodup)
    (hv : dictGet ho k = some v) :
    dictGet (mergedParams (some ps) ho tok ctype co) k = some v := by
  simp only [mergedParams, Option.getD_some]
  cases co with
  | none =>
    rw [dictGet_set_other _ _ _ _ (Ne.symm hk)]
    exact dictGet_update_of_get_some ho ps k v hnd hv
  | some c =>
    have hkd2 : ("data" : String) ≠ k := fun h => Option.noConfusion (hkd h.symm)
    rw [dictGet_set_other _ _ _ _ hkd2, dictGet_set_other _ _ _ _ (Ne.symm hk)]
    exact dictGet_update_of_get_some ho ps k v hnd hv

/-- Closed instance of claim C3's amended theorem: both sides define
"timeout" and the session-wide value wins in the merged bag. -/
theorem c3_session_wins_witness :
    dictGet (mergedParams (some [("timeout", PVal.str "1")])
        [("timeout", PVal.str "9")] none none none) "timeout" =
      some (PVal.str "9") :=
  c3_session_wins [("timeout", PVal.str "1")] [("timeout", PVal.str "9")]
    none none none "timeout" (PVal.str "9") (by decide) (fun _ => rfl)
    (by decide) (by decide)

/-- Counterexample to claim C6 as stated: a GET through the gateway with a
non-empty caller-supplied extra-parameters mapping mutates that mapping in
place — after the call it no longer holds only its original binding. -/
theorem c6_counterexample :
    (get_request asciiDecode srvOpts "u" none
        (some [("verify", PVal.str "no")])).callerParams ≠
      some [("verify", PVal.str "no")] := by decide

/-- Claim C6 (amended): the side effects of a dispatch are the single
transport invocation, the optional decode and diagnostic log emission, and
the in-place mutation of a non-empty caller-supplied extra-parameters
mapping: every trace contains exactly one transport call; an absent caller
mapping stays absent and an empty one is left unchanged, while a non-empty
one holds the fully merged parameter bag after the call.  The session
context itself is not mutated (it is read only, by construction of the
embedding). -/
theorem c6_effects (method : String → Dict → ServerResponse)
    (decode : List Nat → String → Option String) (url : String)
    (co : Option (List Nat)) (ro : Option (String → String))
    (tok ctype : Option String) (ps : Option Dict) (ho : Dict) :
    ((makeRequest method decode url co ro tok ctype ps ho).trace.filter
      isTransportCall).length = 1 ∧
    (ps = none →
      (makeRequest method decode url co ro tok ctype ps ho).callerParams =
        none) ∧
    (∀ d, ps = some d → d.isEmpty = true →
      (makeRequest method decode url co ro tok ctype ps ho).callerParams =
        some d) ∧
    (∀ d, ps = some d → d.isEmpty = false →
      (makeRequest method decode url co ro tok ctype ps ho).callerParams =
        some (mergedParams ps ho tok ctype co)) := by
  have hcp : (makeRequest method decode url co ro tok ctype ps ho).callerParams
      = callerAfterState ps (mergedParams ps ho tok ctype co) := by
    simp only [makeRequest]
    split
    · rfl
    · split
      · split <;> rfl
      · rfl
  have htr : ((makeRequest method decode url co ro tok ctype ps ho).trace.filter
      isTransportCall).length = 1 := by
    simp only [makeRequest]
    split
    · simp [isTransportCall]
    · split
      · split <;> simp [isTransportCall]
      · simp [isTransportCall]
  refine ⟨htr, fun h => ?_, fun d h hde => ?_, fun d h hde => ?_⟩
  · rw [hcp, h]
    rfl
  · rw [hcp, h]
    simp [callerAfterState, hde]
  · rw [hcp, h]
    simp [callerAfterState, hde]

/-- Closed instance of claim C6's amended theorem: a non-empty caller
mapping holds the merged bag after the call, and the trace holds exactly one
transport invocation. -/
theorem c6_effects_witness :
    (makeRequest (fun _ _ => okResponse) asciiDecode "u" none none none none
        (some [("verify", PVal.str "no")]) []).callerParams =
      some (mergedParams (some [("verify", PVal.str "no")]) [] none none
        none) ∧
    ((makeRequest (fun _ _ => okResponse) asciiDecode "u" none none none none
        (some [("verify", PVal.str "no")]) []).trace.filter
      isTransportCall).length = 1 :=
  ⟨(c6_effects (fun _ _ => okResponse) asciiDecode "u" none none none none
      (some [("verify", PVal.str "no")]) []).2.2.2
      [("verify", PVal.str "no")] rfl rfl,
   (c6_effects (fun _ _ => okResponse) asciiDecode "u" none none none none
      (some [("verify", PVal.str "no")]) []).1⟩
